import Mathlib

/-!
Verification of the legacy PyTorch checkpoint loader (`pytorch/pytorch.go` of
nsd20463/gopickle).  The Go source is shallowly embedded: the generic pickle
decoder (`gopickle`, an external collaborator of this package) is modelled as a
stream of already-decoded values, Go dynamic values (`interface{}`) become the
inductive type `PValue`, Go `panic` becomes the `crash` outcome, and the
closure-captured `deserializedObjects` map becomes explicit state threading.
-/

namespace Pytorch

/-- The nine storage element kinds, one per storage class registered in
`pickleFindClass` (torch.FloatStorage, HalfStorage, DoubleStorage, CharStorage,
ShortStorage, IntStorage, LongStorage, ByteStorage, BoolStorage). -/
inductive StorageKind where
  | float
  | half
  | double
  | char
  | short
  | int
  | long
  | byte
  | bool
deriving DecidableEq, Repr

/-- A typed flat buffer (`StorageInterface` implementation).  `id` is an
allocation identity: each call of the storage-class allocator returns a value
with a fresh `id`, so Lean equality of `Storage` models Go pointer identity. -/
structure Storage where
  kind : StorageKind
  size : Int
  location : String
  id : Nat
deriving DecidableEq, Repr

/-- A decoded Go dynamic value (`interface{}`) as produced by the unpickler.
`bigInt` models `*big.Int`, `int` models Go `int`, `list` models
`*types.List`, `slice` models `[]interface{}`, `tuple` models `*types.Tuple`,
`none` models the nil interface, `storageClass` models a
`StorageClassInterface` token, `storageV` models a resolved
`StorageInterface`, and `persid` marks an embedded persistent-reference
record inside an encoded object graph. -/
inductive PValue where
  | none
  | int (n : Int)
  | bigInt (n : Int)
  | str (s : String)
  | tuple (xs : List PValue)
  | list (xs : List PValue)
  | slice (xs : List PValue)
  | storageClass (k : StorageKind)
  | storageV (s : Storage)
  | persid (savedId : PValue)

/-- One distinct constructor per distinct error produced in `pytorch.go`
(sentinel errors and `fmt.Errorf` sites), plus pass-through decoder and I/O
errors. -/
inductive LoadError where
  | invalidMagicNumber
  | invalidProtocolVersion
  | nonEmptyTupleExpected
  | cannotGetTypename
  | unexpectedStorageDataLength
  | unexpectedDataTypes
  | unexpectedViewMetadataLength
  | unexpectedViewMetadataType
  | unexpectedSavedIdType (typename : String)
  | invalidStorageKeysData
  | invalidStorageKey
  | storageObjectNotFound (key : String)
  | decodeFailure
  | ioError
deriving DecidableEq, Repr

/-- The state captured by the `PersistentLoad` closure: the
`deserializedObjects` map (root key to storage, modelled as an association
list) together with the allocation counter that mints storage identities. -/
structure LoadState where
  deserializedObjects : List (String × Storage)
  nextId : Nat

/-- Outcome of a state-threading step: success with a value and the updated
state, a Go error together with the registry state at the time of the error,
or a Go `panic`. -/
inductive Res (α : Type) where
  | ok (a : α) (st : LoadState)
  | error (e : LoadError) (st : LoadState)
  | crash (msg : String)

/-- Outcome of a whole `Load` call (`(interface{}, error)` in Go, or a
`panic`). -/
inductive LoadResult where
  | ok (v : PValue)
  | error (e : LoadError)
  | crash (msg : String)

/-- Go map read `deserializedObjects[rootKey]`. -/
def lookupStorage : List (String × Storage) → String → Option Storage
  | [], _ => Option.none
  | (k, s) :: rest, key => if key = k then some s else lookupStorage rest key

/-- Go type assertion `.(StorageClassInterface)`. -/
def asStorageClass : PValue → Option StorageKind
  | .storageClass k => some k
  | _ => Option.none

/-- Go type assertion `.(string)`. -/
def asStr : PValue → Option String
  | .str s => some s
  | _ => Option.none

/-- Go type assertion `.(int)`. -/
def asInt : PValue → Option Int
  | .int n => some n
  | _ => Option.none

/-- Modelled from the spec: the storage-class capability token's allocator
(`dataType.New(size, location)`, i.e. `Allocate(elementCount, location)` of
section 6; the storage class implementations are not part of the sources
here).  It returns a fresh buffer of the token's kind; the fresh identity is
supplied by the caller's allocation counter. -/
def storageNew (kind : StorageKind) (size : Int) (location : String) (id : Nat) : Storage :=
  { kind := kind, size := size, location := location, id := id }

/-- The `switch vm := viewMetadata.(type)` at the end of the `"storage"`
branch of the `PersistentLoad` closure: nil view metadata resolves to the
root storage, a `[]interface{}` must have 3 elements and then hits the
`panic("viewMetadata not implemented")` placeholder, anything else is the
"unexpected view metadata type" error. -/
def viewMetadataSwitch (st : LoadState) (storage : Storage) (viewMetadata : PValue) :
    Res PValue :=
  match viewMetadata with
  | .none => .ok (.storageV storage) st
  | .slice vm =>
    if vm.length ≠ 3 then .error .unexpectedViewMetadataLength st
    else .crash "viewMetadata not implemented"
  | _ => .error .unexpectedViewMetadataType st

/-- Body of the `"storage"` case of the `PersistentLoad` closure after the
length-6 check: type-assert the five data elements, look up the root key in
`deserializedObjects` and allocate-and-register on a miss, then dispatch on
the view metadata. -/
def persistentLoadStorage (st : LoadState) (d1 d2 d3 d4 d5 : PValue) : Res PValue :=
  match asStorageClass d1, asStr d2, asStr d3, asInt d4 with
  | some dataType, some rootKey, some location, some size =>
    match lookupStorage st.deserializedObjects rootKey with
    | some storage => viewMetadataSwitch st storage d5
    | Option.none =>
      viewMetadataSwitch
        { deserializedObjects :=
            (rootKey, storageNew dataType size location st.nextId) :: st.deserializedObjects,
          nextId := st.nextId + 1 }
        (storageNew dataType size location st.nextId) d5
  | _, _, _, _ => .error .unexpectedDataTypes st

/-- The `PersistentLoad` closure installed on the unpickler in
`loadLegacyNoTar`: require a non-empty tuple, extract the string typename,
and dispatch on `"storage"` / `"module"` / anything else.  The Go error
messages are, in order: "PersistentLoad: non-empty tuple espected",
"PersistentLoad: cannot get typename", "PersistentLoad: unexpected storage
data length", and "Unexpected saved ID type: %s"; the `"module"` case is the
`panic("PersistentLoad module not implemented")` placeholder. -/
def persistentLoad (st : LoadState) (savedId : PValue) : Res PValue :=
  match savedId with
  | .tuple [] => .error .nonEmptyTupleExpected st
  | .tuple (t0 :: rest) =>
    match t0 with
    | .str typename =>
      if typename = "storage" then
        match rest with
        | [d1, d2, d3, d4, d5] => persistentLoadStorage st d1 d2 d3 d4 d5
        | _ => .error .unexpectedStorageDataLength st
      else if typename = "module" then
        .crash "PersistentLoad module not implemented"
      else
        .error (.unexpectedSavedIdType typename) st
    | _ => .error .cannotGetTypename st
  | _ => .error .nonEmptyTupleExpected st

/-- The empty registry created at the top of `loadLegacyNoTar`
(`make(map[string]StorageInterface)`). -/
def initState : LoadState := { deserializedObjects := [], nextId := 0 }

/-- Shorthand for a well-shaped 6-element `"storage"` persistent-reference
tuple. -/
def storageTuple (cls : StorageKind) (rootKey location : String) (size : Int)
    (vm : PValue) : PValue :=
  .tuple [.str "storage", .storageClass cls, .str rootKey, .str location, .int size, vm]

/-- The lowercase digit characters used by Go's `big.Int.Text` for base 16
(digit table "0123456789abcdef"). -/
def hexDigitChar : Nat → Char
  | 0 => '0' | 1 => '1' | 2 => '2' | 3 => '3' | 4 => '4'
  | 5 => '5' | 6 => '6' | 7 => '7' | 8 => '8' | 9 => '9'
  | 10 => 'a' | 11 => 'b' | 12 => 'c' | 13 => 'd' | 14 => 'e'
  | _ => 'f'

/-- Base-16 digit extraction loop of `big.Int.Text(16)` for a natural number:
emit least-significant digits first, prepending onto `acc`, so that the
result is most-significant-first with no leading zeros ("0" for zero).  The
fuel argument (`n + 1` at the top call) makes the recursion structural; it
never runs out since the number of base-16 digits of `n` is at most `n + 1`. -/
def natHexCore : Nat → Nat → List Char → List Char
  | 0, _, acc => acc
  | fuel + 1, n, acc =>
    if n / 16 = 0 then hexDigitChar (n % 16) :: acc
    else natHexCore fuel (n / 16) (hexDigitChar (n % 16) :: acc)

/-- Base-16 text of a natural number, as `big.Int.Text(16)` renders a
non-negative value. -/
def natHex (n : Nat) : String := ⟨natHexCore (n + 1) n []⟩

/-- `n.Text(16)` of Go's `math/big`: lowercase base-16 digits, with a leading
minus sign for negative values. -/
def intText16 : Int → String
  | .ofNat n => natHex n
  | .negSucc m => "-" ++ natHex (m + 1)

/-- `const hexMagicNumber = "1950a86a20f9469cfc6c"`. -/
def hexMagicNumber : String := "1950a86a20f9469cfc6c"

/-- `const protocolVersion = 1001`. -/
def protocolVersion : Int := 1001

/-- The integer whose base-16 text is `hexMagicNumber` (used only in
statements; the embedded checker compares hex strings exactly as the source
does). -/
def magicInt : Int := 0x1950a86a20f9469cfc6c

/-- `unpickle`: run the external decoder for one value.  Modelled from the
spec: the Object Graph Decoder is an external collaborator with contract
`Decode(stream) -> (value, error)`; here the file's pickled segments are a
stream of already-decoded values of which each call consumes one, and a
decoder failure (for instance an exhausted stream) is a pass-through error. -/
def unpickle (vals : List PValue) : Except LoadError (PValue × List PValue) :=
  match vals with
  | [] => .error .decodeFailure
  | v :: rest => .ok (v, rest)

/-- `readAndCheckMagicNumber`: decode one value; it must be a `*big.Int`
whose `Text(16)` equals `hexMagicNumber`, else `ErrInvalidMagicNumber`. -/
def readAndCheckMagicNumber (vals : List PValue) : Except LoadError (List PValue) :=
  match unpickle vals with
  | .error e => .error e
  | .ok (obj, rest) =>
    match obj with
    | .bigInt n =>
      if intText16 n = hexMagicNumber then .ok rest else .error .invalidMagicNumber
    | _ => .error .invalidMagicNumber

/-- `readAndChecProtocolVersion` (source spelling): decode one value; it must
be a Go `int` equal to `protocolVersion`, else `ErrInvalidProtocolVersion`. -/
def readAndChecProtocolVersion (vals : List PValue) : Except LoadError (List PValue) :=
  match unpickle vals with
  | .error e => .error e
  | .ok (obj, rest) =>
    match obj with
    | .int n =>
      if n = protocolVersion then .ok rest else .error .invalidProtocolVersion
    | _ => .error .invalidProtocolVersion

mutual

/-- Modelled from the spec: `u.Load()` of the external decoder with the
`PersistentLoad` hook installed — the decoder reconstructs one value and
invokes `OnPersistentReference` on every embedded persistent marker in
encounter order, aborting on the first hook error (every error is surfaced
immediately) and propagating a hook panic. -/
def resolveGraph (st : LoadState) : PValue → Res PValue
  | .persid savedId => persistentLoad st savedId
  | .tuple xs =>
    match resolveList st xs with
    | .ok ys st2 => .ok (.tuple ys) st2
    | .error e st2 => .error e st2
    | .crash m => .crash m
  | .list xs =>
    match resolveList st xs with
    | .ok ys st2 => .ok (.list ys) st2
    | .error e st2 => .error e st2
    | .crash m => .crash m
  | .slice xs =>
    match resolveList st xs with
    | .ok ys st2 => .ok (.slice ys) st2
    | .error e st2 => .error e st2
    | .crash m => .crash m
  | .none => .ok .none st
  | .int n => .ok (.int n) st
  | .bigInt n => .ok (.bigInt n) st
  | .str s => .ok (.str s) st
  | .storageClass k => .ok (.storageClass k) st
  | .storageV s => .ok (.storageV s) st

/-- Resolution of the children of a container value, left to right, threading
the registry state. -/
def resolveList (st : LoadState) : List PValue → Res (List PValue)
  | [] => .ok [] st
  | x :: xs =>
    match resolveGraph st x with
    | .ok y st2 =>
      match resolveList st2 xs with
      | .ok ys st3 => .ok (y :: ys) st3
      | .error e st3 => .error e st3
      | .crash m => .crash m
    | .error e st2 => .error e st2
    | .crash m => .crash m

end

/-- The element loop of `makeStorageKeys`: every raw key must be a string,
else the "invalid storage key" error. -/
def storageKeyStrings : List PValue → Except LoadError (List String)
  | [] => .ok []
  | .str s :: rest =>
    match storageKeyStrings rest with
    | .ok ks => .ok (s :: ks)
    | .error e => .error e
  | _ :: _ => .error .invalidStorageKey

/-- `makeStorageKeys`: the decoded key-order value must be a `*types.List`
of strings ("invalid storage keys data" otherwise). -/
def makeStorageKeys (obj : PValue) : Except LoadError (List String) :=
  match obj with
  | .list xs => storageKeyStrings xs
  | _ => .error .invalidStorageKeysData

/-- Modelled from the spec: the byte width of each element kind, used by the
materializer's `elementCount * elementSize(kind)` read size (the storage
implementations are not part of the sources here). -/
def elementSize : StorageKind → Nat
  | .float => 4
  | .half => 2
  | .double => 8
  | .char => 1
  | .short => 2
  | .int => 4
  | .long => 8
  | .byte => 1
  | .bool => 1

/-- Modelled from the spec: `storageObj.SetFromFile(f)` reads exactly
`elementCount * elementSize(kind)` bytes from the current file position into
the storage's buffer, advancing the position; a short read is an I/O error.
The trailing raw section is the byte list, and a successful read returns the
unconsumed remainder. -/
def setFromFile (s : Storage) (payload : List Int) : Option (List Int) :=
  if payload.length < s.size.toNat * elementSize s.kind then Option.none
  else some (payload.drop (s.size.toNat * elementSize s.kind))

/-- The materialization loop at the end of `loadLegacyNoTar`: for each key in
order, the root storage must already be registered ("storage object not
found for key '%s'" otherwise), then its bytes are read from the trailing
section. -/
def materializeStorages (keys : List String) (st : LoadState) (payload : List Int) :
    Except LoadError (List Int) :=
  match keys with
  | [] => .ok payload
  | key :: rest =>
    match lookupStorage st.deserializedObjects key with
    | Option.none => .error (.storageObjectNotFound key)
    | some storage =>
      match setFromFile storage payload with
      | Option.none => .error .ioError
      | some payload2 => materializeStorages rest st payload2

/-- The tail of `loadLegacyNoTar` after the header checks: decode and discard
the system info value, decode the object graph with the `PersistentLoad`
hook, decode the storage key order, and materialize every storage in key
order. -/
def loadTail (vals : List PValue) (payload : List Int) : LoadResult :=
  match unpickle vals with
  | .error e => .error e
  | .ok (_sysInfo, r1) =>
    match unpickle r1 with
    | .error e => .error e
    | .ok (graph, r2) =>
      match resolveGraph initState graph with
      | .crash m => .crash m
      | .error e _ => .error e
      | .ok result st =>
        match unpickle r2 with
        | .error e => .error e
        | .ok (rawStorageKeys, _r3) =>
          match makeStorageKeys rawStorageKeys with
          | .error e => .error e
          | .ok storageKeys =>
            match materializeStorages storageKeys st payload with
            | .error e => .error e
            | .ok _ => .ok result

/-- `loadLegacyNoTar`: magic number check, protocol version check, then the
rest of the pipeline.  `vals` is the stream of pickled-segment values and
`payload` the trailing raw byte section. -/
def loadLegacyNoTar (vals : List PValue) (payload : List Int) : LoadResult :=
  match readAndCheckMagicNumber vals with
  | .error e => .error e
  | .ok r1 =>
    match readAndChecProtocolVersion r1 with
    | .error e => .error e
    | .ok r2 => loadTail r2 payload

/-- Outcome of the `tar.Reader.Next` probe at the top of `loadLegacyFile`:
`errHeader` (`tar.ErrHeader`, not a tar archive — rewind and read raw),
`eof` (`io.EOF`), `header` (a tar header was read successfully, `err = nil`),
or any other error. -/
inductive TarProbe where
  | errHeader
  | eof
  | header
  | otherErr
deriving DecidableEq, Repr

/-- A file as seen by `Load`: the zip-probe classification (`isZipFile`), the
tar-probe outcome, the decoded pickled-segment stream, and the trailing raw
byte section. -/
structure InputFile where
  isZip : Bool
  tarProbe : TarProbe
  values : List PValue
  payload : List Int

/-- `loadZipFile`: the `panic("loadZipFile not implemented")` placeholder. -/
def loadZipFile (_f : InputFile) : LoadResult := .crash "loadZipFile not implemented"

/-- `loadLegacyFile`: probe for a tar header.  On `tar.ErrHeader` the file is
rewound and read as a raw legacy stream; on `io.EOF` the `switch`'s `break`
only leaves the `switch`, so control falls through to the
`panic("legacy load from tar not implemented")` placeholder, which is also
reached after a successfully read tar header... in fact on a successful
`Next` (`err = nil`) the `default` branch returns `(nil, err)`, i.e. a nil
result with no error; any other probe error is returned verbatim. -/
def loadLegacyFile (f : InputFile) : LoadResult :=
  match f.tarProbe with
  | .errHeader => loadLegacyNoTar f.values f.payload
  | .eof => .crash "legacy load from tar not implemented"
  | .header => .ok .none
  | .otherErr => .error .ioError

/-- `Load`: dispatch on the `isZipFile` probe. -/
def Load (f : InputFile) : LoadResult :=
  if !f.isZip then loadLegacyFile f else loadZipFile f

/-- Value of a base-16 digit character (inverse of `hexDigitChar`; proof
helper, not part of the source). -/
def hexVal : Char → Nat
  | '0' => 0 | '1' => 1 | '2' => 2 | '3' => 3 | '4' => 4
  | '5' => 5 | '6' => 6 | '7' => 7 | '8' => 8 | '9' => 9
  | 'a' => 10 | 'b' => 11 | 'c' => 12 | 'd' => 13 | 'e' => 14
  | _ => 15

/-- Numeric value of a most-significant-first base-16 digit string (proof
helper). -/
def ofHex (l : List Char) : Nat := l.foldl (fun a c => 16 * a + hexVal c) 0

/-- Registry monotonicity: every root key registered in `st` is still
registered, to the same storage, in `st2`. -/
def RegistryExtends (st st2 : LoadState) : Prop :=
  ∀ k s, lookupStorage st.deserializedObjects k = some s →
    lookupStorage st2.deserializedObjects k = some s

/-- The errors of the spec's `MalformedStorageRecord` family: the storage
record length check and the element/view-metadata type checks of the
`"storage"` branch. -/
def isMalformedStorageRecord : LoadError → Bool
  | .unexpectedStorageDataLength => true
  | .unexpectedDataTypes => true
  | .unexpectedViewMetadataLength => true
  | .unexpectedViewMetadataType => true
  | _ => false

/-- Whether a resolver outcome is a success. -/
def isOkRes : Res PValue → Bool
  | .ok _ _ => true
  | _ => false

/-- Whether a load outcome is a Go error (as opposed to a success or a
panic). -/
def isErrorLoad : LoadResult → Bool
  | .error _ => true
  | _ => false

/-- A resolver outcome whose error is in the `MalformedStorageRecord`
family. -/
def isMalformedErrorRes : Res PValue → Bool
  | .error e _ => isMalformedStorageRecord e
  | _ => false

/-- View-metadata values of the shape the spec allows: empty/absent (nil) or
a 3-element (view key, offset, length) record. -/
def suitableViewMeta : PValue → Bool
  | .none => true
  | .slice vm => vm.length == 3
  | _ => false

theorem hexVal_hexDigitChar (d : Nat) (h : d < 16) : hexVal (hexDigitChar d) = d := by
  interval_cases d <;> rfl

theorem natHexCore_acc (fuel : Nat) : ∀ (n : Nat) (acc : List Char),
    natHexCore fuel n acc = natHexCore fuel n [] ++ acc := by
  induction fuel with
  | zero => intro n acc; simp [natHexCore]
  | succ f ih =>
    intro n acc
    by_cases h : n / 16 = 0
    · simp [natHexCore, h]
    · simp only [natHexCore, if_neg h]
      rw [ih (n / 16) (hexDigitChar (n % 16) :: acc), ih (n / 16) [hexDigitChar (n % 16)]]
      simp

theorem ofHex_append_singleton (l : List Char) (c : Char) :
    ofHex (l ++ [c]) = 16 * ofHex l + hexVal c := by
  simp [ofHex, List.foldl_append]

theorem ofHex_natHexCore (fuel : Nat) : ∀ n : Nat, n < 16 ^ fuel →
    ofHex (natHexCore fuel n []) = n := by
  induction fuel with
  | zero =>
    intro n h
    interval_cases n
    rfl
  | succ f ih =>
    intro n h
    by_cases h0 : n / 16 = 0
    · have h16 : n < 16 := by omega
      simp [natHexCore, h0, ofHex, hexVal_hexDigitChar (n % 16) (by omega)]
      omega
    · have hdiv : n / 16 < 16 ^ f := by
        have hmul : n < 16 ^ f * 16 := by rw [← pow_succ]; exact h
        omega
      rw [show natHexCore (f + 1) n []
            = natHexCore f (n / 16) [hexDigitChar (n % 16)] by
          simp [natHexCore, h0]]
      rw [natHexCore_acc f (n / 16) [hexDigitChar (n % 16)], ofHex_append_singleton,
        ih (n / 16) hdiv, hexVal_hexDigitChar (n % 16) (by omega)]
      omega

theorem natHex_eq_magic {n : Nat} (h : natHex n = hexMagicNumber) :
    n = 0x1950a86a20f9469cfc6c := by
  have hd : natHexCore (n + 1) n [] = hexMagicNumber.data := congrArg String.data h
  have hlt : n < 16 ^ (n + 1) :=
    lt_of_lt_of_le (Nat.lt_pow_self (by norm_num) n)
      (Nat.pow_le_pow_right (by norm_num) (Nat.le_succ n))
  have h1 : ofHex (natHexCore (n + 1) n []) = n := ofHex_natHexCore (n + 1) n hlt
  rw [hd] at h1
  have h2 : ofHex hexMagicNumber.data = 0x1950a86a20f9469cfc6c := by decide
  exact h1.symm.trans h2

theorem intText16_eq_magic {n : Int} (h : intText16 n = hexMagicNumber) : n = magicInt := by
  cases n with
  | ofNat m =>
    have hm : m = 0x1950a86a20f9469cfc6c := natHex_eq_magic h
    rw [hm]
    rfl
  | negSucc m =>
    exfalso
    have hd : '-' :: natHexCore (m + 2) (m + 1) [] = hexMagicNumber.data :=
      congrArg String.data h
    have h2 : some '-' = some '1' := congrArg List.head? hd
    exact absurd h2 (by decide)

theorem registryExtends_insert {st : LoadState} {k : String} {s : Storage}
    (hl : lookupStorage st.deserializedObjects k = Option.none) (nid : Nat) :
    RegistryExtends st ⟨(k, s) :: st.deserializedObjects, nid⟩ := by
  intro k2 s2 h2
  simp only [lookupStorage]
  by_cases hk : k2 = k
  · subst hk
    rw [hl] at h2
    nomatch h2
  · rw [if_neg hk]
    exact h2

theorem viewMetadataSwitch_ok {st : LoadState} {storage : Storage} {vm v : PValue}
    {st2 : LoadState} (h : viewMetadataSwitch st storage vm = .ok v st2) :
    vm = PValue.none ∧ v = .storageV storage ∧ st2 = st := by
  cases vm with
  | none =>
    have h2 : Res.ok (PValue.storageV storage) st = Res.ok v st2 := h
    injection h2 with ha hb
    exact ⟨rfl, ha.symm, hb.symm⟩
  | slice xs =>
    exfalso
    by_cases h3 : xs.length = 3
    · simp [viewMetadataSwitch, h3] at h
    · simp [viewMetadataSwitch, h3] at h
  | int n => nomatch h
  | bigInt n => nomatch h
  | str s2 => nomatch h
  | tuple xs => nomatch h
  | list xs => nomatch h
  | storageClass k2 => nomatch h
  | storageV s2 => nomatch h
  | persid p => nomatch h

theorem persistentLoad_storageTuple (st : LoadState) (cls : StorageKind) (k loc : String)
    (sz : Int) (vm : PValue) :
    persistentLoad st (storageTuple cls k loc sz vm) =
      match lookupStorage st.deserializedObjects k with
      | some storage => viewMetadataSwitch st storage vm
      | Option.none =>
        viewMetadataSwitch
          { deserializedObjects := (k, storageNew cls sz loc st.nextId) :: st.deserializedObjects,
            nextId := st.nextId + 1 }
          (storageNew cls sz loc st.nextId) vm := rfl

theorem persistentLoad_storageTuple_ok {st : LoadState} {cls : StorageKind} {k loc : String}
    {sz : Int} {vm v : PValue} {st1 : LoadState}
    (h : persistentLoad st (storageTuple cls k loc sz vm) = .ok v st1) :
    vm = PValue.none ∧ ∃ s : Storage, v = .storageV s ∧
      lookupStorage st1.deserializedObjects k = some s ∧ RegistryExtends st st1 := by
  rw [persistentLoad_storageTuple] at h
  cases hl : lookupStorage st.deserializedObjects k with
  | some s0 =>
    rw [hl] at h
    obtain ⟨hvm, hv, hst⟩ := viewMetadataSwitch_ok h
    subst hst
    exact ⟨hvm, s0, hv, hl, fun _ _ h2 => h2⟩
  | none =>
    rw [hl] at h
    obtain ⟨hvm, hv, hst⟩ := viewMetadataSwitch_ok h
    subst hst
    refine ⟨hvm, storageNew cls sz loc st.nextId, hv, ?_, registryExtends_insert hl _⟩
    simp [lookupStorage]

theorem persistentLoadStorage_extends {st : LoadState} {d1 d2 d3 d4 d5 v : PValue}
    {st1 : LoadState} (h : persistentLoadStorage st d1 d2 d3 d4 d5 = .ok v st1) :
    RegistryExtends st st1 := by
  unfold persistentLoadStorage at h
  cases h1 : asStorageClass d1 with
  | none => rw [h1] at h; nomatch h
  | some cls =>
    rw [h1] at h
    cases h2 : asStr d2 with
    | none => rw [h2] at h; nomatch h
    | some rootKey =>
      rw [h2] at h
      cases h3 : asStr d3 with
      | none => rw [h3] at h; nomatch h
      | some location =>
        rw [h3] at h
        cases h4 : asInt d4 with
        | none => rw [h4] at h; nomatch h
        | some size =>
          rw [h4] at h
          replace h :
              (match lookupStorage st.deserializedObjects rootKey with
                | some storage => viewMetadataSwitch st storage d5
                | Option.none =>
                  viewMetadataSwitch
                    { deserializedObjects :=
                        (rootKey, storageNew cls size location st.nextId) ::
                          st.deserializedObjects,
                      nextId := st.nextId + 1 }
                    (storageNew cls size location st.nextId) d5) = Res.ok v st1 := h
          cases hl : lookupStorage st.deserializedObjects rootKey with
          | some storage =>
            rw [hl] at h
            obtain ⟨_, _, hst⟩ := viewMetadataSwitch_ok h
            subst hst
            exact fun _ _ h2 => h2
          | none =>
            rw [hl] at h
            obtain ⟨_, _, hst⟩ := viewMetadataSwitch_ok h
            subst hst
            exact registryExtends_insert hl _

theorem persistentLoad_extends {st : LoadState} {sid v : PValue} {st1 : LoadState}
    (h : persistentLoad st sid = .ok v st1) : RegistryExtends st st1 := by
  cases sid with
  | tuple xs =>
    cases xs with
    | nil => nomatch h
    | cons t0 rest =>
      cases t0 with
      | str typename =>
        by_cases hty : typename = "storage"
        · subst hty
          simp only [persistentLoad, if_pos rfl] at h
          match rest, h with
          | [d1, d2, d3, d4, d5], h => exact persistentLoadStorage_extends h
        · by_cases hmod : typename = "module"
          · subst hmod
            simp only [persistentLoad, if_neg hty] at h
            nomatch h
          · simp only [persistentLoad, if_neg hty, if_neg hmod] at h
            nomatch h
      | none => nomatch h
      | int n => nomatch h
      | bigInt n => nomatch h
      | tuple ys => nomatch h
      | list ys => nomatch h
      | slice ys => nomatch h
      | storageClass k => nomatch h
      | storageV s => nomatch h
      | persid p => nomatch h
  | none => nomatch h
  | int n => nomatch h
  | bigInt n => nomatch h
  | str s => nomatch h
  | list ys => nomatch h
  | slice ys => nomatch h
  | storageClass k => nomatch h
  | storageV s => nomatch h
  | persid p => nomatch h

theorem asStorageClass_eq_some {d : PValue} {c : StorageKind}
    (h : asStorageClass d = some c) : d = .storageClass c := by
  cases d <;> simp_all [asStorageClass]

theorem asStr_eq_some {d : PValue} {s : String} (h : asStr d = some s) : d = .str s := by
  cases d <;> simp_all [asStr]

theorem asInt_eq_some {d : PValue} {n : Int} (h : asInt d = some n) : d = .int n := by
  cases d <;> simp_all [asInt]

theorem persistentLoadStorage_badTypes {st : LoadState} {d1 d2 d3 d4 : PValue} (d5 : PValue)
    (h : asStorageClass d1 = Option.none ∨ asStr d2 = Option.none ∨
      asStr d3 = Option.none ∨ asInt d4 = Option.none) :
    persistentLoadStorage st d1 d2 d3 d4 d5 = .error .unexpectedDataTypes st := by
  unfold persistentLoadStorage
  cases h1 : asStorageClass d1 <;> cases h2 : asStr d2 <;> cases h3 : asStr d3 <;>
    cases h4 : asInt d4 <;> simp_all

theorem viewMetadataSwitch_badMeta {st : LoadState} {storage : Storage} {d5 : PValue}
    (hvm : suitableViewMeta d5 = false) :
    isMalformedErrorRes (viewMetadataSwitch st storage d5) = true := by
  cases d5 <;>
    simp_all [suitableViewMeta, viewMetadataSwitch, isMalformedErrorRes,
      isMalformedStorageRecord]

theorem persistentLoadStorage_badViewMeta {st : LoadState} {cls : StorageKind}
    {k loc : String} {sz : Int} {d5 : PValue} (hvm : suitableViewMeta d5 = false) :
    isMalformedErrorRes
      (persistentLoadStorage st (.storageClass cls) (.str k) (.str loc) (.int sz) d5) = true := by
  have hred : persistentLoadStorage st (.storageClass cls) (.str k) (.str loc) (.int sz) d5 =
      match lookupStorage st.deserializedObjects k with
      | some storage => viewMetadataSwitch st storage d5
      | Option.none =>
        viewMetadataSwitch
          { deserializedObjects := (k, storageNew cls sz loc st.nextId) :: st.deserializedObjects,
            nextId := st.nextId + 1 }
          (storageNew cls sz loc st.nextId) d5 := rfl
  rw [hred]
  cases lookupStorage st.deserializedObjects k with
  | some storage => exact viewMetadataSwitch_badMeta hvm
  | none => exact viewMetadataSwitch_badMeta hvm

/-- C1: during a single legacy load, storage records sharing a root key
resolve to the identical `Storage`: (1) every successful resolution only
grows the registry; (2) on the first occurrence of a root key the resolver
allocates a fresh `Storage` through the storage-class token's allocator and
registers it under the key; (3) any later successful resolution of a storage
record with the same root key (after any intermediate registry-growing
resolutions) returns exactly the registered `Storage` — same identity — and
changes nothing: no second allocation. -/
theorem persistentLoad_storage_dedup :
    (∀ (st : LoadState) (sid v : PValue) (st1 : LoadState),
        persistentLoad st sid = .ok v st1 → RegistryExtends st st1) ∧
    (∀ (st : LoadState) (cls : StorageKind) (k loc : String) (sz : Int),
        lookupStorage st.deserializedObjects k = Option.none →
        persistentLoad st (storageTuple cls k loc sz .none) =
          .ok (.storageV (storageNew cls sz loc st.nextId))
            { deserializedObjects := (k, storageNew cls sz loc st.nextId) ::
                st.deserializedObjects,
              nextId := st.nextId + 1 }) ∧
    (∀ (st st1 stM st2 : LoadState) (cls cls2 : StorageKind) (k loc loc2 : String)
        (sz sz2 : Int) (vm vm2 : PValue) (s1 s2 : Storage),
        persistentLoad st (storageTuple cls k loc sz vm) = .ok (.storageV s1) st1 →
        RegistryExtends st1 stM →
        persistentLoad stM (storageTuple cls2 k loc2 sz2 vm2) = .ok (.storageV s2) st2 →
        s2 = s1 ∧ st2 = stM) := by
  refine ⟨fun st sid v st1 h => persistentLoad_extends h, ?_, ?_⟩
  · intro st cls k loc sz hl
    rw [persistentLoad_storageTuple, hl]
    rfl
  · intro st st1 stM st2 cls cls2 k loc loc2 sz sz2 vm vm2 s1 s2 h1 hext h2
    obtain ⟨-, s1b, hv1, hmem1, -⟩ := persistentLoad_storageTuple_ok h1
    have hs1 : s1b = s1 := (PValue.storageV.inj hv1).symm
    subst hs1
    have hmemM : lookupStorage stM.deserializedObjects k = some s1b := hext _ _ hmem1
    rw [persistentLoad_storageTuple, hmemM] at h2
    obtain ⟨-, hv2, hst2⟩ := viewMetadataSwitch_ok h2
    exact ⟨PValue.storageV.inj hv2, hst2⟩

/-- Witness for C1: on the concrete registry that already holds root key "0"
(as produced by a first resolution from the empty registry), a second storage
record with root key "0" resolves to the identical registered storage and
leaves the registry untouched. -/
theorem persistentLoad_storage_dedup_witness :
    persistentLoad ⟨[("0", ⟨.float, 2, "cpu", 0⟩)], 1⟩ (storageTuple .double "0" "meta" 9 .none)
        = .ok (.storageV ⟨.float, 2, "cpu", 0⟩) ⟨[("0", ⟨.float, 2, "cpu", 0⟩)], 1⟩ ∧
    ((⟨.float, 2, "cpu", 0⟩ : Storage) = ⟨.float, 2, "cpu", 0⟩ ∧
      (⟨[("0", ⟨.float, 2, "cpu", 0⟩)], 1⟩ : LoadState) = ⟨[("0", ⟨.float, 2, "cpu", 0⟩)], 1⟩) :=
  ⟨rfl,
    persistentLoad_storage_dedup.2.2 initState ⟨[("0", ⟨.float, 2, "cpu", 0⟩)], 1⟩
      ⟨[("0", ⟨.float, 2, "cpu", 0⟩)], 1⟩ ⟨[("0", ⟨.float, 2, "cpu", 0⟩)], 1⟩
      .float .double "0" "cpu" "meta" 2 9 .none .none ⟨.float, 2, "cpu", 0⟩ ⟨.float, 2, "cpu", 0⟩
      rfl (fun _ _ h => h) rfl⟩

/-- C2 counterexample: a well-typed `"storage"` record whose view metadata is
a present 3-element record does not resolve to a registered view — the
resolver hits the `panic("viewMetadata not implemented")` placeholder, so
resolution does not succeed at all. -/
theorem viewMetadata_unimplemented_cex :
    persistentLoad initState (storageTuple .float "0" "cpu" 4 (.slice [.str "v", .int 0, .int 2]))
        = .crash "viewMetadata not implemented" ∧
    isOkRes (persistentLoad initState
        (storageTuple .float "0" "cpu" 4 (.slice [.str "v", .int 0, .int 2]))) = false :=
  ⟨rfl, rfl⟩

/-- C2 amended: for every `"storage"` record with well-typed elements and a
present 3-element view-metadata record, resolution panics with
"viewMetadata not implemented" (the view branch is an unimplemented
placeholder); no Storage View is created, registered or returned. -/
theorem viewMetadata_unimplemented (st : LoadState) (cls : StorageKind) (k loc : String)
    (sz : Int) (a b c : PValue) :
    persistentLoad st (storageTuple cls k loc sz (.slice [a, b, c])) =
      .crash "viewMetadata not implemented" := by
  rw [persistentLoad_storageTuple]
  cases lookupStorage st.deserializedObjects k <;> rfl

/-- C5: a persistent-reference tuple whose first element is `"storage"` and
whose total length is not 6 (here: `1 + rest.length ≠ 6`) fails with the
"unexpected storage data length" error — a member of the
`MalformedStorageRecord` family, distinct from a generic decode error — and
the registry state (including the allocation counter) is returned
unchanged: nothing is allocated or registered. -/
theorem storage_record_length_error (st : LoadState) (rest : List PValue)
    (h : rest.length ≠ 5) :
    persistentLoad st (.tuple (.str "storage" :: rest)) =
        .error .unexpectedStorageDataLength st ∧
    isMalformedStorageRecord .unexpectedStorageDataLength = true ∧
    isMalformedStorageRecord .decodeFailure = false := by
  refine ⟨?_, rfl, rfl⟩
  rcases rest with _ | ⟨a, _ | ⟨b, _ | ⟨c, _ | ⟨d, _ | ⟨e, _ | ⟨f, r⟩⟩⟩⟩⟩⟩ <;>
    first
    | rfl
    | simp at h

/-- Witness for C5: the 1-element tuple `("storage",)` fails with the
storage-record length error on the empty registry. -/
theorem storage_record_length_error_witness :
    persistentLoad initState (.tuple [.str "storage"]) =
        .error .unexpectedStorageDataLength initState ∧
    isMalformedStorageRecord .unexpectedStorageDataLength = true ∧
    isMalformedStorageRecord .decodeFailure = false :=
  storage_record_length_error initState [] (by decide)

/-- C6: a 6-element `"storage"` tuple in which some element has the wrong
type — the capability token is not a storage class, the root key or location
is not a string, the element count is not an int, or the view metadata is
neither nil nor a 3-element record — fails with an error of the
`MalformedStorageRecord` family. -/
theorem storage_record_type_error (st : LoadState) (d1 d2 d3 d4 d5 : PValue)
    (h : asStorageClass d1 = Option.none ∨ asStr d2 = Option.none ∨
      asStr d3 = Option.none ∨ asInt d4 = Option.none ∨ suitableViewMeta d5 = false) :
    isMalformedErrorRes
      (persistentLoad st (.tuple [.str "storage", d1, d2, d3, d4, d5])) = true := by
  have hred : persistentLoad st (.tuple [.str "storage", d1, d2, d3, d4, d5]) =
      persistentLoadStorage st d1 d2 d3 d4 d5 := rfl
  rw [hred]
  have hbad : ∀ hb : asStorageClass d1 = Option.none ∨ asStr d2 = Option.none ∨
      asStr d3 = Option.none ∨ asInt d4 = Option.none,
      isMalformedErrorRes (persistentLoadStorage st d1 d2 d3 d4 d5) = true := by
    intro hb
    rw [persistentLoadStorage_badTypes d5 hb]
    rfl
  rcases h with h | h | h | h | h
  · exact hbad (Or.inl h)
  · exact hbad (Or.inr (Or.inl h))
  · exact hbad (Or.inr (Or.inr (Or.inl h)))
  · exact hbad (Or.inr (Or.inr (Or.inr h)))
  · cases h1 : asStorageClass d1 with
    | none => exact hbad (Or.inl h1)
    | some cls =>
      cases h2 : asStr d2 with
      | none => exact hbad (Or.inr (Or.inl h2))
      | some k =>
        cases h3 : asStr d3 with
        | none => exact hbad (Or.inr (Or.inr (Or.inl h3)))
        | some loc =>
          cases h4 : asInt d4 with
          | none => exact hbad (Or.inr (Or.inr (Or.inr h4)))
          | some sz =>
            obtain rfl := asStorageClass_eq_some h1
            obtain rfl := asStr_eq_some h2
            obtain rfl := asStr_eq_some h3
            obtain rfl := asInt_eq_some h4
            exact persistentLoadStorage_badViewMeta h

/-- Witness for C6: a 6-element storage tuple whose capability-token slot
holds an int fails with a malformed-storage-record error. -/
theorem storage_record_type_error_witness :
    isMalformedErrorRes
      (persistentLoad initState
        (.tuple [.str "storage", .int 0, .str "0", .str "cpu", .int 4, .none])) = true :=
  storage_record_type_error initState (.int 0) (.str "0") (.str "cpu") (.int 4) .none
    (Or.inl rfl)

/-- C9 counterexample: a `"module"` persistent reference does not resolve to
its first element — the resolver hits the
`panic("PersistentLoad module not implemented")` placeholder, with
provenance fields present or absent alike. -/
theorem module_reference_unimplemented_cex :
    persistentLoad initState (.tuple [.str "module", .str "mod", .str "source"])
        = .crash "PersistentLoad module not implemented" ∧
    isOkRes (persistentLoad initState (.tuple [.str "module", .str "mod", .str "source"]))
        = false ∧
    isOkRes (persistentLoad initState (.tuple [.str "module"])) = false :=
  ⟨rfl, rfl, rfl⟩

/-- C9 amended: every persistent-reference tuple whose first element is the
string `"module"` makes resolution panic with
"PersistentLoad module not implemented", whatever the remaining (provenance)
elements are; nothing is resolved or returned. -/
theorem module_reference_unimplemented (st : LoadState) (rest : List PValue) :
    persistentLoad st (.tuple (.str "module" :: rest)) =
      .crash "PersistentLoad module not implemented" := rfl

/-- C10: a persistent-reference value that is not a non-empty tuple fails
with the "non-empty tuple espected" error; a non-string first element fails
with the "cannot get typename" error; a string discriminator other than
`"storage"`/`"module"` fails with the "Unexpected saved ID type" error; in
all three cases the registry state is returned unchanged; the
"cannot get typename" error is distinct from the unexpected-discriminator
error; and a resolver error on an embedded marker is exactly the decoder's
error (the whole load aborts). -/
theorem persistentLoad_bad_savedId :
    (∀ (st : LoadState) (v : PValue), (∀ xs : List PValue, v ≠ .tuple xs) →
        persistentLoad st v = .error .nonEmptyTupleExpected st) ∧
    (∀ st : LoadState, persistentLoad st (.tuple []) = .error .nonEmptyTupleExpected st) ∧
    (∀ (st : LoadState) (t0 : PValue) (rest : List PValue), (∀ s : String, t0 ≠ .str s) →
        persistentLoad st (.tuple (t0 :: rest)) = .error .cannotGetTypename st) ∧
    (∀ (st : LoadState) (ty : String) (rest : List PValue), ty ≠ "storage" → ty ≠ "module" →
        persistentLoad st (.tuple (.str ty :: rest)) =
          .error (.unexpectedSavedIdType ty) st) ∧
    (∀ ty : String, LoadError.cannotGetTypename ≠ LoadError.unexpectedSavedIdType ty) ∧
    (∀ (st : LoadState) (sid : PValue) (e : LoadError) (st2 : LoadState),
        persistentLoad st sid = .error e st2 →
        resolveGraph st (.persid sid) = .error e st2) := by
  refine ⟨?_, ?_, ?_, ?_, ?_, ?_⟩
  · intro st v h
    cases v with
    | tuple xs => exact absurd rfl (h xs)
    | none => rfl
    | int n => rfl
    | bigInt n => rfl
    | str s => rfl
    | list ys => rfl
    | slice ys => rfl
    | storageClass k => rfl
    | storageV s => rfl
    | persid p => rfl
  · exact fun st => rfl
  · intro st t0 rest h
    cases t0 with
    | str s => exact absurd rfl (h s)
    | none => rfl
    | int n => rfl
    | bigInt n => rfl
    | tuple ys => rfl
    | list ys => rfl
    | slice ys => rfl
    | storageClass k => rfl
    | storageV s => rfl
    | persid p => rfl
  · intro st ty rest h1 h2
    simp [persistentLoad, h1, h2]
  · intro ty h
    nomatch h
  · intro st sid e st2 h
    rw [resolveGraph]
    exact h

theorem magic_text16 : intText16 magicInt = hexMagicNumber := rfl

theorem materializeStorages_append (ks1 : List String) :
    ∀ (ks2 : List String) (st : LoadState) (p p2 : List Int),
      materializeStorages ks1 st p = .ok p2 →
      materializeStorages (ks1 ++ ks2) st p = materializeStorages ks2 st p2 := by
  induction ks1 with
  | nil =>
    intro ks2 st p p2 h
    have h2 : Except.ok (ε := LoadError) p = Except.ok p2 := h
    injection h2 with h3
    rw [List.nil_append, h3]
  | cons key ks ih =>
    intro ks2 st p p2 h
    rw [List.cons_append]
    simp only [materializeStorages] at h ⊢
    cases hl : lookupStorage st.deserializedObjects key with
    | none =>
      rw [hl] at h
      nomatch h
    | some storage =>
      rw [hl] at h
      replace h : (match setFromFile storage p with
          | Option.none => Except.error LoadError.ioError
          | some payload2 => materializeStorages ks st payload2) = Except.ok p2 := h
      show (match setFromFile storage p with
          | Option.none => Except.error LoadError.ioError
          | some payload2 => materializeStorages (ks ++ ks2) st payload2) =
        materializeStorages ks2 st p2
      cases hf : setFromFile storage p with
      | none =>
        rw [hf] at h
        nomatch h
      | some p3 =>
        rw [hf] at h
        exact ih ks2 st p3 p2 h

/-- C3: a raw legacy file whose first decoded value is not a `*big.Int`
equal (in base 16) to the magic constant makes `Load` fail with
`ErrInvalidMagicNumber`; everything after the first decoded value (both the
rest of the pickled stream and the trailing payload) is universally
quantified, so the failure happens without any further decoding or reading. -/
theorem load_invalid_magic (v : PValue) (rest : List PValue) (pay : List Int)
    (hnm : v ≠ PValue.bigInt magicInt) :
    Load ⟨false, .errHeader, v :: rest, pay⟩ = .error .invalidMagicNumber := by
  have hred : Load ⟨false, .errHeader, v :: rest, pay⟩ =
      loadLegacyNoTar (v :: rest) pay := rfl
  rw [hred]
  unfold loadLegacyNoTar
  cases v with
  | bigInt n =>
    have hne : intText16 n ≠ hexMagicNumber := fun hh => hnm (by rw [intText16_eq_magic hh])
    simp [readAndCheckMagicNumber, unpickle, hne]
  | none => rfl
  | int m => rfl
  | str s => rfl
  | tuple xs => rfl
  | list xs => rfl
  | slice xs => rfl
  | storageClass c => rfl
  | storageV s => rfl
  | persid p => rfl

/-- Witness for C3: a file whose first decoded value is the int 5 (not a big
integer at all) fails with `ErrInvalidMagicNumber`. -/
theorem load_invalid_magic_witness :
    Load ⟨false, .errHeader, [.int 5], []⟩ = .error .invalidMagicNumber :=
  load_invalid_magic (.int 5) [] [] (fun h => nomatch h)

/-- C4: after a passing magic-number check, a second decoded value different
from the int 1001 makes `Load` fail with `ErrInvalidProtocolVersion` (this
covers other ints such as 1000 or 1002, and non-int values such as a
`*big.Int` 1001); if it is exactly the int 1001, the load proceeds to the
system-info decode and the rest of the pipeline (`loadTail`). -/
theorem load_protocol_version (v : PValue) (rest : List PValue) (pay : List Int) :
    (v ≠ PValue.int 1001 →
      Load ⟨false, .errHeader, .bigInt magicInt :: v :: rest, pay⟩ =
        .error .invalidProtocolVersion) ∧
    Load ⟨false, .errHeader, .bigInt magicInt :: .int 1001 :: rest, pay⟩ =
      loadTail rest pay := by
  constructor
  · intro hv
    have hred : Load ⟨false, .errHeader, .bigInt magicInt :: v :: rest, pay⟩ =
        loadLegacyNoTar (.bigInt magicInt :: v :: rest) pay := rfl
    rw [hred]
    unfold loadLegacyNoTar
    rw [show readAndCheckMagicNumber (.bigInt magicInt :: v :: rest) = .ok (v :: rest) by
      simp [readAndCheckMagicNumber, unpickle, magic_text16]]
    cases v with
    | int n =>
      have hne : n ≠ protocolVersion := fun hh => hv (congrArg PValue.int hh)
      simp [readAndChecProtocolVersion, unpickle, hne]
    | none => rfl
    | bigInt m => rfl
    | str s => rfl
    | tuple xs => rfl
    | list xs => rfl
    | slice xs => rfl
    | storageClass c => rfl
    | storageV s => rfl
    | persid p => rfl
  · rfl

/-- Witness for C4: a declared protocol version of 1000 fails with
`ErrInvalidProtocolVersion`; a declared version of 1001 proceeds past the
header (and then fails only later, here on the empty remaining stream). -/
theorem load_protocol_version_witness :
    Load ⟨false, .errHeader, [.bigInt magicInt, .int 1000], []⟩ =
        .error .invalidProtocolVersion ∧
    Load ⟨false, .errHeader, [.bigInt magicInt, .int 1001], []⟩ = loadTail [] [] :=
  ⟨(load_protocol_version (.int 1000) [] []).1
      (fun h => absurd (PValue.int.inj h) (by decide)),
    (load_protocol_version (.int 1001) [] []).2⟩

/-- C7: if graph decoding succeeds with registry `st`, the decoded storage
key order is `pre ++ k :: post` where every key of `pre` materializes fine
but `k` was never registered during graph decoding, then `Load` fails with
the "storage object not found" error naming `k`: a Go error, not a crash,
and no partial result is returned — materialization stops at the first
unknown key. -/
theorem unknown_storage_key_error (si graph rawKeys : PValue) (pay pay2 : List Int)
    (res : PValue) (st : LoadState) (pre post : List String) (k : String)
    (hg : resolveGraph initState graph = .ok res st)
    (hk : makeStorageKeys rawKeys = .ok (pre ++ k :: post))
    (hpre : materializeStorages pre st pay = .ok pay2)
    (hmiss : lookupStorage st.deserializedObjects k = Option.none) :
    Load ⟨false, .errHeader, [.bigInt magicInt, .int 1001, si, graph, rawKeys], pay⟩ =
      .error (.storageObjectNotFound k) := by
  have h1 : Load ⟨false, .errHeader, [.bigInt magicInt, .int 1001, si, graph, rawKeys], pay⟩ =
      match resolveGraph initState graph with
      | .crash m => .crash m
      | .error e _ => .error e
      | .ok result st2 =>
        match makeStorageKeys rawKeys with
        | .error e => .error e
        | .ok keys =>
          match materializeStorages keys st2 pay with
          | .error e => .error e
          | .ok _ => .ok result := rfl
  have h2 : Load ⟨false, .errHeader, [.bigInt magicInt, .int 1001, si, graph, rawKeys], pay⟩ =
      match makeStorageKeys rawKeys with
      | .error e => .error e
      | .ok keys =>
        match materializeStorages keys st pay with
        | .error e => .error e
        | .ok _ => .ok res := by rw [h1, hg]
  have h3 : Load ⟨false, .errHeader, [.bigInt magicInt, .int 1001, si, graph, rawKeys], pay⟩ =
      match materializeStorages (pre ++ k :: post) st pay with
      | .error e => .error e
      | .ok _ => .ok res := by rw [h2, hk]
  have h4 : materializeStorages (pre ++ k :: post) st pay =
      .error (.storageObjectNotFound k) := by
    rw [materializeStorages_append pre (k :: post) st pay pay2 hpre]
    simp [materializeStorages, hmiss]
  rw [h3, h4]

/-- Witness for C7: a concrete well-formed stream whose graph registers root
key "0" while the key order also names the never-registered key "77"; the
payload holds exactly the 8 bytes that key "0" (2 float32 elements)
consumes. -/
theorem unknown_storage_key_error_witness :
    Load ⟨false, .errHeader,
        [.bigInt magicInt, .int 1001, .none,
          .persid (storageTuple .float "0" "cpu" 2 .none),
          .list [.str "0", .str "77"]],
        [1, 2, 3, 4, 5, 6, 7, 8]⟩ =
      .error (.storageObjectNotFound "77") :=
  unknown_storage_key_error .none (.persid (storageTuple .float "0" "cpu" 2 .none))
    (.list [.str "0", .str "77"]) [1, 2, 3, 4, 5, 6, 7, 8] []
    (.storageV ⟨.float, 2, "cpu", 0⟩) ⟨[("0", ⟨.float, 2, "cpu", 0⟩)], 1⟩
    ["0"] [] "77" (by rw [resolveGraph]; rfl) rfl rfl rfl

/-- C8 counterexample: on a zip-classified input, `Load` does not return a
typed error at all — it panics with "loadZipFile not implemented" (and in
particular does not return an `UnsupportedContainerFormat`-style error,
which does not even exist in the code). -/
theorem loadZip_unimplemented_cex :
    Load ⟨true, .errHeader, [], []⟩ = .crash "loadZipFile not implemented" ∧
    isErrorLoad (Load ⟨true, .errHeader, [], []⟩) = false :=
  ⟨rfl, rfl⟩

/-- C8 amended: for every input classified as a zip archive by the format
detector, `Load` panics with "loadZipFile not implemented" instead of
returning a typed unsupported-container error. -/
theorem loadZip_unimplemented (tp : TarProbe) (vals : List PValue) (pay : List Int) :
    Load ⟨true, tp, vals, pay⟩ = .crash "loadZipFile not implemented" := rfl

/-- Witness for C10: concrete instances of the three failure shapes. -/
theorem persistentLoad_bad_savedId_witness :
    persistentLoad initState (.int 7) = .error .nonEmptyTupleExpected initState ∧
    persistentLoad initState (.tuple [.int 7]) = .error .cannotGetTypename initState ∧
    persistentLoad initState (.tuple [.str "foo"]) =
      .error (.unexpectedSavedIdType "foo") initState :=
  ⟨persistentLoad_bad_savedId.1 initState (.int 7) (fun xs h => nomatch h),
    persistentLoad_bad_savedId.2.2.1 initState (.int 7) [] (fun s h => nomatch h),
    persistentLoad_bad_savedId.2.2.2.1 initState "foo" [] (by decide) (by decide)⟩

end Pytorch
